import Mathlib

/-!
Shallow embedding of the compute-unit estimation/optimization extension
(`RpcClientExt` in `src/lib.rs`) together with the local execution channel
(`src/state/rollup_channel.rs`), the result record
(`src/state/return_struct.rs`) and the mocked helpers
(`src/utils/helpers.rs`).

Modelling conventions:
  * Machine integers (`u64`, `u32`) are `Nat`; the two places where the
    source narrows a `u64` into a `u32` are modelled explicitly
    (`as u32` becomes `% 2^32`, `u32::try_from` becomes a bounds check),
    and `u32::saturating_add` becomes `min (a + b) (2^32 - 1)`.
  * The external VM engine (`load_and_execute_sanitized_transactions`) is a
    black box: its per-transaction outcomes are passed in as a parameter
    `List EngineResult`, exactly the shape the source matches on.
  * The network side of `estimate_compute_units_msg` (blockhash fetch,
    signing, `simulate_transaction_with_config`) is likewise a parameter:
    an `Except` carrying the optional `units_consumed` field of the
    simulation response.
  * Rust `Result` is `Except`; error payloads are their display strings.
  * A Rust panic (`get(0).unwrap()` in `optimize_compute_units_unsigned_tx`)
    is modelled as the `none` case of an `Option` wrapper around the result.
-/

namespace RollupSpec

/-- Account address (`solana_sdk::pubkey::Pubkey`); an opaque identifier. -/
structure Pubkey where
  id : Nat
deriving DecidableEq, Repr

/-- The compute-budget program's fixed address, `solana_sdk::compute_budget::id()`. -/
def compute_budget_id : Pubkey := ⟨1027⟩

/-- An uncompiled instruction (`solana_sdk::instruction::Instruction`):
a program address, a list of account addresses, and opaque data bytes. -/
structure Instruction where
  program_id : Pubkey
  accounts : List Pubkey
  data : List Nat
deriving DecidableEq, Repr

/-- A compiled instruction (`solana_sdk::instruction::CompiledInstruction`):
account references are indices into the message's `account_keys`. -/
structure CompiledInstruction where
  program_id_index : Nat
  accounts : List Nat
  data : List Nat
deriving DecidableEq, Repr

/-- The legacy `solana_sdk::message::Message`: the account address list and
the compiled instruction list (header and blockhash are irrelevant to the
claims and omitted). -/
structure Message where
  account_keys : List Pubkey
  instructions : List CompiledInstruction
deriving DecidableEq, Repr

/-- `solana_sdk::transaction::Transaction`, reduced to its message
(signatures are irrelevant to the claims). -/
structure Transaction where
  message : Message
deriving DecidableEq, Repr

/-- Little-endian byte encoding of a `u32` value, as produced by borsh for
the `SetComputeUnitLimit(u32)` payload. -/
def u32_le_bytes (n : Nat) : List Nat :=
  [n % 256, n / 256 % 256, n / 65536 % 256, n / 16777216 % 256]

/-- `u32::saturating_add`. -/
def u32_saturating_add (a b : Nat) : Nat :=
  min (a + b) 4294967295

/-- `ComputeBudgetInstruction::set_compute_unit_limit(units)`: an
instruction against the compute-budget program with no accounts whose data
is the borsh encoding of the enum variant `SetComputeUnitLimit(units)` —
tag byte `2` followed by the `u32` limit in little-endian. -/
def set_compute_unit_limit (units : Nat) : Instruction :=
  { program_id := compute_budget_id
    accounts := []
    data := 2 :: u32_le_bytes units }

/-- `Message::compile_instruction` (via `solana_sdk`'s `compile_ix`):
every address of the instruction is replaced by its first position in the
message's `account_keys`. The source `position(...).unwrap()` panics when
the address is absent; both call sites in this crate push the address just
before compiling, so it is always present and `List.indexOf` agrees with
the source. (The source also narrows the position to `u8`; key lists here
stay far below 256, so the narrowing is the identity and is omitted.) -/
def Message.compile_instruction (msg : Message) (ix : Instruction) : CompiledInstruction :=
  { program_id_index := msg.account_keys.indexOf ix.program_id
    accounts := ix.accounts.map (fun k => msg.account_keys.indexOf k)
    data := ix.data }

/-! ### `src/state/return_struct.rs` -/

/-- `ReturnStruct`: outcome of one processed transaction. -/
structure ReturnStruct where
  success : Bool
  cu : Nat
  result : String
deriving DecidableEq, Repr

/-- `ReturnStruct::success(cu)` (named `successWith` because `success` is
taken by the field projection). -/
def ReturnStruct.successWith (cu : Nat) : ReturnStruct :=
  { success := true
    cu := cu
    result := "Transaction executed successfully with " ++ toString cu ++ " compute units" }

/-- `ReturnStruct::failure(error)`. -/
def ReturnStruct.failure (error : String) : ReturnStruct :=
  { success := false, cu := 0, result := error }

/-- `ReturnStruct::no_results()`. -/
def ReturnStruct.no_results : ReturnStruct :=
  { success := false, cu := 0, result := "No transaction results returned" }

/-! ### The engine's outcome shapes (`solana_svm`, consumed contract) -/

/-- `TransactionError`, used only through its display string. -/
abbrev TransactionError := String

/-- The fields of `ExecutedTransaction.execution_details` the channel
reads: executed units, optional log lines, and the execution status
(`Result<(), TransactionError>`). -/
structure ExecutionDetails where
  executed_units : Nat
  log_messages : Option (List String)
  status : Except TransactionError Unit
deriving Repr

/-- `solana_svm::transaction_processing_result::ProcessedTransaction`. -/
inductive ProcessedTransaction where
  | Executed (details : ExecutionDetails)
  | FeesOnly (load_error : TransactionError)
deriving Repr

/-- One entry of `results.processing_results`:
`Result<ProcessedTransaction, TransactionError>`. -/
abbrev EngineResult := Except TransactionError ProcessedTransaction

/-! ### `src/utils/helpers.rs` and the processing environment -/

/-- `CheckedTransactionDetails::new(nonce, lamports_per_signature)`; the
nonce is always `None` here, so it is an `Option Unit`. -/
structure CheckedTransactionDetails where
  nonce : Option Unit
  lamports_per_signature : Nat
deriving DecidableEq, Repr

/-- `get_transaction_check_results(len)`: one mocked pre-check result per
transaction, every one `Ok` with `lamports_per_signature = 5000`. -/
def get_transaction_check_results (len : Nat) :
    List (Except TransactionError CheckedTransactionDetails) :=
  List.replicate len (Except.ok { nonce := none, lamports_per_signature := 5000 })

/-- `solana_sdk::fee::FeeStructure`, reduced to the one field read. -/
structure FeeStructure where
  lamports_per_signature : Nat
deriving DecidableEq, Repr

/-- `FeeStructure::default()`: the Solana SDK default fee is 5000 lamports
per signature (`sol_to_lamports(0.000005)`); external collaborator
constant. -/
def FeeStructure.default : FeeStructure :=
  { lamports_per_signature := 5000 }

/-- The fields of `TransactionProcessingEnvironment` the channel sets
(`feature_set` is an opaque `FeatureSet::all_enabled()` and is omitted);
`blockhash` is the 32-byte hash read as a number, `rent_collector` keeps
only presence. -/
structure TransactionProcessingEnvironment where
  blockhash : Nat
  blockhash_lamports_per_signature : Nat
  epoch_total_stake : Nat
  fee_lamports_per_signature : Nat
  rent_collector : Option Unit
deriving DecidableEq, Repr

/-- `Hash::default()` is the all-zero hash. -/
def Hash.default : Nat := 0

/-- The `TransactionProcessingEnvironment` literal built inside
`process_rollup_transfers` (rollup_channel.rs lines 78–85). -/
def rollup_processing_environment : TransactionProcessingEnvironment :=
  let fee_structure := FeeStructure.default
  { blockhash := Hash.default
    blockhash_lamports_per_signature := fee_structure.lamports_per_signature
    epoch_total_stake := 0
    fee_lamports_per_signature := 5000
    rent_collector := none }

/-! ### `src/state/rollup_channel.rs` -/

/-- The body of the result-mapping loop in `process_rollup_transfers`
(lines 115–156): maps the engine outcome for transaction `i` to a
`ReturnStruct`. -/
def map_transaction_result (i : Nat) (transaction_result : EngineResult) : ReturnStruct :=
  match transaction_result with
  | Except.ok processed_tx =>
    match processed_tx with
    | ProcessedTransaction.Executed executed_tx =>
      let cu := executed_tx.executed_units
      let logs := executed_tx.log_messages
      let status := executed_tx.status
      let is_success := status.isOk
      if is_success then
        ReturnStruct.successWith cu
      else
        match status with
        | Except.error err =>
          let error_msg := "Transaction " ++ toString i ++ " failed with error: " ++ err
          let log_msg := (logs.map (fun l => String.intercalate "\n" l)).getD ""
          { success := false
            cu := cu
            result := error_msg ++ "\nLogs:\n" ++ log_msg }
        | _ => ReturnStruct.successWith cu
    | ProcessedTransaction.FeesOnly load_error =>
      ReturnStruct.failure
        ("Transaction " ++ toString i ++ " failed with error: " ++ load_error ++
          ". Only fees were charged.")
  | Except.error err =>
    ReturnStruct.failure ("Transaction " ++ toString i ++ " failed: " ++ err)

/-- The `for (i, transaction_result) in results.processing_results.iter().enumerate()`
loop, as a recursion carrying the running index. -/
def map_transaction_results (i : Nat) : List EngineResult → List ReturnStruct
  | [] => []
  | r :: rest => map_transaction_result i r :: map_transaction_results (i + 1) rest

/-- `RollUpChannel::process_rollup_transfers(transactions)`: sanitization,
environment assembly and the engine call do not alter the result shape;
the engine's per-transaction outcomes arrive as `processing_results`.
After the mapping loop, a lone sentinel is pushed when the engine produced
no outcomes for a non-empty input batch (lines 158–161). -/
def process_rollup_transfers (transactions : List Transaction)
    (processing_results : List EngineResult) : List ReturnStruct :=
  let return_results := map_transaction_results 0 processing_results
  if return_results.isEmpty && !transactions.isEmpty then
    [ReturnStruct.no_results]
  else
    return_results

/-! ### `src/lib.rs` — the `RpcClientExt` implementation -/

/-- `estimate_compute_units_unsigned_tx` (lib.rs lines 67–96): runs the
one-element batch `[transaction]` through the channel, fails with the
aggregated failure details when any record failed, otherwise returns the
compute units of every record in order. -/
def estimate_compute_units_unsigned_tx (transaction : Transaction)
    (processing_results : List EngineResult) : Except String (List Nat) :=
  let results := process_rollup_transfers [transaction] processing_results
  let failures := results.filter (fun r => !r.success)
  if !failures.isEmpty then
    let error_messages := String.intercalate "\n" (failures.map (fun r => r.result))
    Except.error ("Transaction simulation failed:\n" ++ error_messages)
  else
    Except.ok (results.map (fun r => r.cu))

/-- `estimate_compute_units_msg` (lib.rs lines 98–124). `sim` is the
combined outcome of the network interaction (blockhash fetch, signing,
`simulate_transaction_with_config`): an error there propagates via `?`;
otherwise `sim` carries the response's optional `units_consumed`. -/
def estimate_compute_units_msg (sim : Except String (Option Nat)) : Except String Nat :=
  match sim with
  | Except.error e => Except.error e
  | Except.ok units_consumed =>
    match units_consumed with
    | none => Except.error "Missing Compute Units from transaction simulation."
    | some consumed_cu =>
      if consumed_cu = 0 then
        Except.error "Transaction simulation failed."
      else
        Except.ok consumed_cu

/-- `optimize_compute_units_unsigned_tx` (lib.rs lines 126–145). The
mutation of the transaction is explicit state passing: the returned pair is
(returned estimate, transaction afterwards). `*optimal_cu_vec.get(0).unwrap() as u32`
is the `% 2^32` truncation of the first estimate; the `unwrap` panic is the
`none` case of the outer `Option`. -/
def optimize_compute_units_unsigned_tx (transaction : Transaction)
    (processing_results : List EngineResult) :
    Option (Except String (Nat × Transaction)) :=
  match estimate_compute_units_unsigned_tx transaction processing_results with
  | Except.error e => some (Except.error e)
  | Except.ok optimal_cu_vec =>
    match optimal_cu_vec.head? with
    | none => none
    | some cu0 =>
      let optimal_cu := cu0 % 4294967296
      let optimize_ix := set_compute_unit_limit (u32_saturating_add optimal_cu optimal_cu)
      let message1 : Message :=
        { transaction.message with
            account_keys := transaction.message.account_keys ++ [compute_budget_id] }
      let compiled_ix := message1.compile_instruction optimize_ix
      let message2 : Message :=
        { message1 with instructions := compiled_ix :: message1.instructions }
      some (Except.ok (optimal_cu, { message := message2 }))

/-- `u32::try_from(n)` for a non-negative `n`. -/
def u32_try_from (n : Nat) : Except String Nat :=
  if n < 4294967296 then
    Except.ok n
  else
    Except.error "out of range integral type conversion attempted"

/-- `optimize_compute_units_msg` (lib.rs lines 182–196), with the message
mutation as explicit state passing. -/
def optimize_compute_units_msg (message : Message)
    (sim : Except String (Option Nat)) : Except String (Nat × Message) :=
  match estimate_compute_units_msg sim with
  | Except.error e => Except.error e
  | Except.ok consumed =>
    match u32_try_from consumed with
    | Except.error e => Except.error e
    | Except.ok optimal_cu =>
      let optimize_ix := set_compute_unit_limit (u32_saturating_add optimal_cu 150)
      let message1 : Message :=
        { message with account_keys := message.account_keys ++ [compute_budget_id] }
      let compiled_ix := message1.compile_instruction optimize_ix
      let message2 : Message :=
        { message1 with instructions := compiled_ix :: message1.instructions }
      Except.ok (optimal_cu, message2)

/-! ### Derived notions used by the claims -/

/-- The `u32` limit carried by a compiled set-compute-unit-limit
instruction: `some` exactly when the data is the borsh encoding of
`SetComputeUnitLimit` (tag `2` and four little-endian bytes). -/
def decode_budget_limit (cix : CompiledInstruction) : Option Nat :=
  match cix.data with
  | [2, b0, b1, b2, b3] => some (b0 + 256 * b1 + 65536 * b2 + 16777216 * b3)
  | _ => none

/-- Whether a compiled instruction of `msg` is a budget (set-compute-unit-limit)
instruction: its program index resolves to the compute-budget program and
its data decodes as `SetComputeUnitLimit`. -/
def is_budget_ix (msg : Message) (cix : CompiledInstruction) : Bool :=
  decide (msg.account_keys.get? cix.program_id_index = some compute_budget_id) &&
    decide ((decode_budget_limit cix).isSome = true)

/-- Number of budget instructions in a message. -/
def budget_ix_count (msg : Message) : Nat :=
  (msg.instructions.filter (fun cix => is_budget_ix msg cix)).length

/-- The limit of the front instruction, when the front instruction is a
budget instruction of the message. -/
def head_budget_limit (msg : Message) : Option Nat :=
  match msg.instructions with
  | [] => none
  | cix :: _ =>
    if is_budget_ix msg cix then decode_budget_limit cix else none

/-! ### Shared lemmas -/

lemma map_transaction_results_length (i : Nat) (l : List EngineResult) :
    (map_transaction_results i l).length = l.length := by
  induction l generalizing i with
  | nil => rfl
  | cons r rest ih => simp [map_transaction_results, ih]

lemma map_transaction_results_get (k i : Nat) (l : List EngineResult) :
    (map_transaction_results k l).get? i =
      (l.get? i).map (fun r => map_transaction_result (k + i) r) := by
  induction l generalizing k i with
  | nil => simp [map_transaction_results]
  | cons r rest ih =>
    cases i with
    | zero => simp [map_transaction_results]
    | succ j =>
      simp only [map_transaction_results, List.get?_cons_succ, ih (k + 1) j]
      have : k + 1 + j = k + (j + 1) := by omega
      rw [this]

lemma process_rollup_transfers_ne_nil (txs : List Transaction)
    (prs : List EngineResult) (h : txs ≠ []) :
    process_rollup_transfers txs prs ≠ [] := by
  unfold process_rollup_transfers
  cases prs with
  | nil =>
    cases txs with
    | nil => exact absurd rfl h
    | cons t ts => simp [map_transaction_results]
  | cons r rest => simp [map_transaction_results]

lemma estimate_unsigned_ok_nonempty (tx : Transaction) (prs : List EngineResult)
    (v : List Nat) (h : estimate_compute_units_unsigned_tx tx prs = Except.ok v) :
    v ≠ [] := by
  unfold estimate_compute_units_unsigned_tx at h
  by_cases hemp :
      ((process_rollup_transfers [tx] prs).filter (fun r => !r.success)).isEmpty
  · rw [if_neg (by simp [hemp])] at h
    have hv : v = (process_rollup_transfers [tx] prs).map (fun r => r.cu) :=
      (Except.ok.injEq _ _ ▸ h).symm
    have hne := process_rollup_transfers_ne_nil [tx] prs (by simp)
    intro hnil
    exact hne (by simpa [hv, List.map_eq_nil_iff] using hnil)
  · rw [if_pos (by simp [hemp])] at h
    exact absurd h (by simp)

lemma decode_budget_limit_encode (n : Nat) (hn : n < 4294967296) :
    decode_budget_limit ⟨(set_compute_unit_limit n).program_id.id,
        [], (set_compute_unit_limit n).data⟩ = some n := by
  simp only [set_compute_unit_limit, u32_le_bytes, decode_budget_limit]
  congr 1
  omega

lemma decode_set_limit_data (n : Nat) (idx : Nat) (accs : List Nat)
    (hn : n < 4294967296) :
    decode_budget_limit ⟨idx, accs, 2 :: u32_le_bytes n⟩ = some n := by
  simp only [u32_le_bytes, decode_budget_limit]
  congr 1
  omega

lemma indexOf_resolves (keys : List Pubkey) :
    (keys ++ [compute_budget_id]).get?
      ((keys ++ [compute_budget_id]).indexOf compute_budget_id) =
        some compute_budget_id :=
  List.indexOf_get? (by simp)

lemma optimize_msg_ok_shape (message m : Message) (sim : Except String (Option Nat))
    (e : Nat) (h : optimize_compute_units_msg message sim = Except.ok (e, m)) :
    estimate_compute_units_msg sim = Except.ok e ∧ e < 4294967296 ∧
    m = ⟨message.account_keys ++ [compute_budget_id],
          (Message.compile_instruction
            ⟨message.account_keys ++ [compute_budget_id], message.instructions⟩
            (set_compute_unit_limit (u32_saturating_add e 150))) ::
            message.instructions⟩ := by
  unfold optimize_compute_units_msg at h
  cases hest : estimate_compute_units_msg sim with
  | error e2 => rw [hest] at h; exact absurd h (by simp)
  | ok consumed =>
    rw [hest] at h
    by_cases hc : consumed < 4294967296
    · simp only [u32_try_from, hc, if_true, Except.ok.injEq, Prod.mk.injEq] at h
      obtain ⟨he, hm⟩ := h
      subst he
      refine ⟨rfl, hc, ?_⟩
      rw [← hm]
    · simp only [u32_try_from, hc, if_false] at h
      exact absurd h (by simp)

lemma optimize_unsigned_ok_shape (tx t : Transaction) (prs : List EngineResult)
    (e : Nat)
    (h : optimize_compute_units_unsigned_tx tx prs = some (Except.ok (e, t))) :
    ∃ cu0 rest,
      estimate_compute_units_unsigned_tx tx prs = Except.ok (cu0 :: rest) ∧
      e = cu0 % 4294967296 ∧
      t = ⟨⟨tx.message.account_keys ++ [compute_budget_id],
            (Message.compile_instruction
              ⟨tx.message.account_keys ++ [compute_budget_id],
                tx.message.instructions⟩
              (set_compute_unit_limit (u32_saturating_add e e))) ::
              tx.message.instructions⟩⟩ := by
  unfold optimize_compute_units_unsigned_tx at h
  cases hest : estimate_compute_units_unsigned_tx tx prs with
  | error e2 => rw [hest] at h; exact absurd h (by simp)
  | ok vec =>
    rw [hest] at h
    cases vec with
    | nil => exact absurd h (by simp [List.head?])
    | cons cu0 rest =>
      simp only [List.head?, Option.some.injEq, Except.ok.injEq,
        Prod.mk.injEq] at h
      obtain ⟨he, ht⟩ := h
      subst he
      refine ⟨cu0, rest, rfl, rfl, ?_⟩
      rw [← ht]

lemma saturating_lt_u32 (a b : Nat) : u32_saturating_add a b < 4294967296 := by
  unfold u32_saturating_add
  omega

lemma head_budget_limit_of_shape (keys : List Pubkey)
    (ixs : List CompiledInstruction) (limit : Nat) (hl : limit < 4294967296) :
    head_budget_limit
      ⟨keys ++ [compute_budget_id],
        (Message.compile_instruction ⟨keys ++ [compute_budget_id], ixs⟩
          (set_compute_unit_limit limit)) :: ixs⟩ = some limit := by
  unfold head_budget_limit Message.compile_instruction set_compute_unit_limit
  simp only []
  rw [if_pos]
  · exact decode_set_limit_data limit _ _ hl
  · unfold is_budget_ix
    simp only [Bool.and_eq_true, decide_eq_true_eq]
    refine ⟨indexOf_resolves keys, ?_⟩
    rw [decode_set_limit_data limit _ _ hl]
    rfl

lemma compiled_budget_is_budget (keys : List Pubkey)
    (ixs tail_ixs : List CompiledInstruction) (limit : Nat) :
    is_budget_ix ⟨keys ++ [compute_budget_id], tail_ixs⟩
      (Message.compile_instruction ⟨keys ++ [compute_budget_id], ixs⟩
        (set_compute_unit_limit limit)) = true := by
  unfold is_budget_ix Message.compile_instruction set_compute_unit_limit
  simp only [Bool.and_eq_true, decide_eq_true_eq]
  refine ⟨indexOf_resolves keys, ?_⟩
  simp [decode_budget_limit, u32_le_bytes]

lemma budget_ix_count_cons_append (keys : List Pubkey)
    (ixs : List CompiledInstruction) (limit : Nat)
    (hfree : budget_ix_count ⟨keys, ixs⟩ = 0)
    (hidx : ∀ cix ∈ ixs, cix.program_id_index < keys.length) :
    budget_ix_count
      ⟨keys ++ [compute_budget_id],
        (Message.compile_instruction ⟨keys ++ [compute_budget_id], ixs⟩
          (set_compute_unit_limit limit)) :: ixs⟩ = 1 := by
  have hold : ∀ cix ∈ ixs,
      is_budget_ix
        ⟨keys ++ [compute_budget_id],
          (Message.compile_instruction ⟨keys ++ [compute_budget_id], ixs⟩
            (set_compute_unit_limit limit)) :: ixs⟩ cix =
        is_budget_ix ⟨keys, ixs⟩ cix := by
    intro cix hc
    unfold is_budget_ix
    rw [show (⟨keys ++ [compute_budget_id], _⟩ : Message).account_keys =
        keys ++ [compute_budget_id] from rfl]
    rw [List.get?_append (hidx cix hc)]
  have hfree_all : ∀ cix ∈ ixs, is_budget_ix ⟨keys, ixs⟩ cix = false := by
    intro cix hc
    have hlen := hfree
    unfold budget_ix_count at hlen
    have hnil := List.length_eq_zero.mp hlen
    have := List.filter_eq_nil_iff.mp hnil cix hc
    simpa using this
  unfold budget_ix_count
  simp only [List.filter_cons]
  rw [if_pos (by rw [compiled_budget_is_budget])]
  have hfilter :
      (ixs.filter (fun cix =>
        is_budget_ix
          ⟨keys ++ [compute_budget_id],
            (Message.compile_instruction ⟨keys ++ [compute_budget_id], ixs⟩
              (set_compute_unit_limit limit)) :: ixs⟩ cix)) = [] := by
    apply List.filter_eq_nil_iff.mpr
    intro cix hc
    rw [hold cix hc, hfree_all cix hc]
    simp
  rw [hfilter]
  rfl

/-! ### Claim theorems -/

/-- C5: `estimate_compute_units_msg` errors when the simulation response
carries no unit count, errors when the reported count is exactly zero, and
returns `Ok` with the count for every nonzero reported count. -/
theorem c5_estimate_msg_unit_count (n : Nat) (hn : n ≠ 0) :
    estimate_compute_units_msg (Except.ok none) =
      Except.error "Missing Compute Units from transaction simulation." ∧
    estimate_compute_units_msg (Except.ok (some 0)) =
      Except.error "Transaction simulation failed." ∧
    estimate_compute_units_msg (Except.ok (some n)) = Except.ok n := by
  refine ⟨rfl, rfl, ?_⟩
  simp [estimate_compute_units_msg, hn]

/-- Witness for C5 at the concrete unit count 7. -/
theorem c5_estimate_msg_unit_count_witness :
    estimate_compute_units_msg (Except.ok none) =
      Except.error "Missing Compute Units from transaction simulation." ∧
    estimate_compute_units_msg (Except.ok (some 0)) =
      Except.error "Transaction simulation failed." ∧
    estimate_compute_units_msg (Except.ok (some 7)) = Except.ok 7 :=
  c5_estimate_msg_unit_count 7 (by decide)

/-- C7: the outcome-to-record mapping of `process_rollup_transfers`:
an Executed-success outcome yields a success record keeping the executed
units; an Executed-failure outcome yields a failure record keeping the
engine-reported units with the index, error and joined logs in the detail;
a FeesOnly outcome and a top-level engine error each yield a failure record
with zero units and the index and error in the detail. -/
theorem c7_outcome_mapping (i cu : Nat) (logs : Option (List String))
    (err load_err top_err : String) :
    map_transaction_result i
        (Except.ok (ProcessedTransaction.Executed
          ⟨cu, logs, Except.ok ()⟩)) =
      { success := true, cu := cu,
        result := "Transaction executed successfully with " ++ toString cu ++
          " compute units" } ∧
    map_transaction_result i
        (Except.ok (ProcessedTransaction.Executed
          ⟨cu, logs, Except.error err⟩)) =
      { success := false, cu := cu,
        result := "Transaction " ++ toString i ++ " failed with error: " ++ err ++
          "\nLogs:\n" ++ ((logs.map (fun l => String.intercalate "\n" l)).getD "") } ∧
    map_transaction_result i
        (Except.ok (ProcessedTransaction.FeesOnly load_err)) =
      { success := false, cu := 0,
        result := "Transaction " ++ toString i ++ " failed with error: " ++
          load_err ++ ". Only fees were charged." } ∧
    map_transaction_result i (Except.error top_err) =
      { success := false, cu := 0,
        result := "Transaction " ++ toString i ++ " failed: " ++ top_err } :=
  ⟨rfl, rfl, rfl, rfl⟩

/-- C9: the processing environment is built with the zero default
reference hash, 5000 lamports per signature for both fee fields, zero
epoch total stake and no rent collector; the mocked pre-checks supply one
passed result with an assumed fee of 5000 per input transaction. -/
theorem c9_environment_and_prechecks (len : Nat) :
    rollup_processing_environment.blockhash = 0 ∧
    rollup_processing_environment.blockhash_lamports_per_signature = 5000 ∧
    rollup_processing_environment.epoch_total_stake = 0 ∧
    rollup_processing_environment.fee_lamports_per_signature = 5000 ∧
    rollup_processing_environment.rent_collector = none ∧
    (get_transaction_check_results len).length = len ∧
    get_transaction_check_results len =
      List.replicate len
        (Except.ok { nonce := none, lamports_per_signature := 5000 }) := by
  refine ⟨rfl, rfl, rfl, rfl, rfl, ?_, rfl⟩
  simp [get_transaction_check_results]

/-- C4: `process_rollup_transfers` returns exactly one `ReturnStruct` per
engine outcome in input order; when the engine yields zero outcomes for a
non-empty input batch it returns exactly the lone `no_results` sentinel;
for an empty input batch (with its empty outcome list) it returns the
empty list without a sentinel. -/
theorem c4_process_batch_shape (txs : List Transaction) (prs : List EngineResult) :
    (prs ≠ [] →
      (process_rollup_transfers txs prs).length = prs.length ∧
      ∀ i, (process_rollup_transfers txs prs).get? i =
        (prs.get? i).map (fun r => map_transaction_result i r)) ∧
    (prs = [] → txs ≠ [] →
      process_rollup_transfers txs prs = [ReturnStruct.no_results]) ∧
    process_rollup_transfers [] [] = [] := by
  refine ⟨?_, ?_, rfl⟩
  · intro hprs
    have hproc : process_rollup_transfers txs prs = map_transaction_results 0 prs := by
      unfold process_rollup_transfers
      cases prs with
      | nil => exact absurd rfl hprs
      | cons r rest => simp [map_transaction_results]
    rw [hproc]
    refine ⟨map_transaction_results_length 0 prs, fun i => ?_⟩
    simpa using map_transaction_results_get 0 i prs
  · intro hprs htxs
    subst hprs
    unfold process_rollup_transfers
    cases txs with
    | nil => exact absurd rfl htxs
    | cons t ts => simp [map_transaction_results]

/-- Witness for C4: a one-transaction batch with one engine outcome yields
one record; the same batch with zero engine outcomes yields exactly the
sentinel. -/
theorem c4_process_batch_shape_witness :
    (process_rollup_transfers [⟨⟨[⟨0⟩], []⟩⟩]
        [Except.ok (ProcessedTransaction.Executed
          ⟨100, none, Except.ok ()⟩)]).length = 1 ∧
    process_rollup_transfers [⟨⟨[⟨0⟩], []⟩⟩] [] = [ReturnStruct.no_results] :=
  ⟨((c4_process_batch_shape [⟨⟨[⟨0⟩], []⟩⟩]
      [Except.ok (ProcessedTransaction.Executed
        ⟨100, none, Except.ok ()⟩)]).1 (by simp)).1,
    (c4_process_batch_shape [⟨⟨[⟨0⟩], []⟩⟩] []).2.1 rfl (by simp)⟩

/-- C1: `estimate_compute_units_unsigned_tx` fails if and only if some
record of the underlying `process_rollup_transfers` call has
`success = false`; on failure the error message is the fixed prefix
followed by every failing record's detail joined by newline (and no
compute-unit list is returned); on success it returns the `cu` of every
record, in order. -/
theorem c1_estimate_all_or_nothing (tx : Transaction) (prs : List EngineResult) :
    ((estimate_compute_units_unsigned_tx tx prs).isOk = false ↔
      ∃ r ∈ process_rollup_transfers [tx] prs, r.success = false) ∧
    (∀ e, estimate_compute_units_unsigned_tx tx prs = Except.error e →
      e = "Transaction simulation failed:\n" ++
        String.intercalate "\n"
          (((process_rollup_transfers [tx] prs).filter
              (fun r => !r.success)).map (fun r => r.result))) ∧
    (∀ v, estimate_compute_units_unsigned_tx tx prs = Except.ok v →
      v = (process_rollup_transfers [tx] prs).map (fun r => r.cu)) := by
  unfold estimate_compute_units_unsigned_tx
  by_cases hemp :
      ((process_rollup_transfers [tx] prs).filter (fun r => !r.success)).isEmpty
  · rw [if_neg (by simp [hemp])]
    have hnil : (process_rollup_transfers [tx] prs).filter (fun r => !r.success) = [] :=
      List.isEmpty_iff.mp hemp
    refine ⟨?_, ?_, ?_⟩
    · simp only [Except.isOk, Except.toBool]
      constructor
      · intro hfalse; cases hfalse
      · rintro ⟨r, hr, hs⟩
        have := List.filter_eq_nil_iff.mp hnil r hr
        simp [hs] at this
    · intro e he; cases he
    · intro v hv
      cases hv
      rfl
  · rw [if_pos (by simp [hemp])]
    have hne : (process_rollup_transfers [tx] prs).filter (fun r => !r.success) ≠ [] :=
      fun hn => hemp (List.isEmpty_iff.mpr hn)
    refine ⟨?_, ?_, ?_⟩
    · simp only [Except.isOk, Except.toBool]
      constructor
      · intro _
        obtain ⟨r, hr⟩ := List.exists_mem_of_ne_nil _ hne
        have hmem := List.mem_filter.mp hr
        exact ⟨r, hmem.1, by simpa using hmem.2⟩
      · intro _; trivial
    · intro e he
      cases he
      rfl
    · intro v hv; cases hv

/-- Witness for C1: a one-element batch whose engine outcome is a
top-level error produces exactly the aggregated error message. -/
theorem c1_estimate_all_or_nothing_witness :
    "Transaction simulation failed:\nTransaction 0 failed: boom" =
      "Transaction simulation failed:\n" ++
        String.intercalate "\n"
          (((process_rollup_transfers [⟨⟨[⟨1⟩], []⟩⟩]
              [Except.error "boom"]).filter
              (fun r => !r.success)).map (fun r => r.result)) :=
  (c1_estimate_all_or_nothing ⟨⟨[⟨1⟩], []⟩⟩ [Except.error "boom"]).2.1
    "Transaction simulation failed:\nTransaction 0 failed: boom" rfl

/-- C10: whenever `estimate_compute_units_unsigned_tx` returns `Ok`, the
returned vector is non-empty, and `optimize_compute_units_unsigned_tx`
never reaches the `get(0).unwrap()` panic (modelled as `none`). -/
theorem c10_estimate_ok_nonempty (tx : Transaction) (prs : List EngineResult) :
    (∀ v, estimate_compute_units_unsigned_tx tx prs = Except.ok v → v ≠ []) ∧
    optimize_compute_units_unsigned_tx tx prs ≠ none := by
  refine ⟨fun v h => estimate_unsigned_ok_nonempty tx prs v h, ?_⟩
  unfold optimize_compute_units_unsigned_tx
  cases hest : estimate_compute_units_unsigned_tx tx prs with
  | error e => simp
  | ok vec =>
    have hne := estimate_unsigned_ok_nonempty tx prs vec hest
    cases vec with
    | nil => exact absurd rfl hne
    | cons a rest => simp [List.head?]

/-- Witness for C10 at a concrete estimate. -/
theorem c10_estimate_ok_nonempty_witness :
    ([100] : List Nat) ≠ [] ∧
    optimize_compute_units_unsigned_tx ⟨⟨[⟨2⟩], []⟩⟩
      [Except.ok (ProcessedTransaction.Executed
        ⟨100, none, Except.ok ()⟩)] ≠ none :=
  ⟨(c10_estimate_ok_nonempty ⟨⟨[⟨2⟩], []⟩⟩
      [Except.ok (ProcessedTransaction.Executed
        ⟨100, none, Except.ok ()⟩)]).1 [100] rfl,
    (c10_estimate_ok_nonempty ⟨⟨[⟨2⟩], []⟩⟩
      [Except.ok (ProcessedTransaction.Executed
        ⟨100, none, Except.ok ()⟩)]).2⟩

/-- C2 counterexample: with an engine-reported estimate of 2^32 the call
returns `Ok(0)` — instruction limit 0, address appended — but 0 is not the
original pre-doubling estimate 2^32: the `as u32` cast truncated it. -/
theorem c2_optimize_unsigned_cex :
    estimate_compute_units_unsigned_tx ⟨⟨[⟨0⟩], []⟩⟩
        [Except.ok (ProcessedTransaction.Executed
          ⟨4294967296, none, Except.ok ()⟩)] =
      Except.ok [4294967296] ∧
    optimize_compute_units_unsigned_tx ⟨⟨[⟨0⟩], []⟩⟩
        [Except.ok (ProcessedTransaction.Executed
          ⟨4294967296, none, Except.ok ()⟩)] =
      some (Except.ok (0, ⟨⟨[⟨0⟩, compute_budget_id],
        [⟨1, [], [2, 0, 0, 0, 0]⟩]⟩⟩)) ∧
    (0 : Nat) ≠ 4294967296 :=
  ⟨rfl, rfl, by decide⟩

/-- C2 (amended): when `optimize_compute_units_unsigned_tx` returns
`Ok(e)`, instruction 0 of the transaction afterwards is a
set-compute-unit-limit instruction whose limit is 2 × e saturating at
u32::MAX, the address list grew by exactly the appended budget-program
address, and e is the first batch estimate truncated to u32
(`estimate mod 2^32`; equal to the estimate whenever it fits in u32). -/
theorem c2_optimize_unsigned_amended (tx t : Transaction)
    (prs : List EngineResult) (e : Nat)
    (h : optimize_compute_units_unsigned_tx tx prs = some (Except.ok (e, t))) :
    (∃ cu0 rest,
      estimate_compute_units_unsigned_tx tx prs = Except.ok (cu0 :: rest) ∧
      e = cu0 % 4294967296 ∧ (cu0 < 4294967296 → e = cu0)) ∧
    head_budget_limit t.message = some (u32_saturating_add e e) ∧
    t.message.account_keys = tx.message.account_keys ++ [compute_budget_id] ∧
    t.message.account_keys.length = tx.message.account_keys.length + 1 ∧
    t.message.instructions.tail = tx.message.instructions := by
  obtain ⟨cu0, rest, hest, he, ht⟩ := optimize_unsigned_ok_shape tx t prs e h
  subst ht
  refine ⟨⟨cu0, rest, hest, he, fun hlt => by rw [he, Nat.mod_eq_of_lt hlt]⟩,
    ?_, rfl, by simp, rfl⟩
  exact head_budget_limit_of_shape tx.message.account_keys
    tx.message.instructions _ (saturating_lt_u32 e e)

/-- Witness for C2 (amended) at estimate 1000: the inserted limit is
2000, saturated addition included. -/
theorem c2_optimize_unsigned_amended_witness :
    head_budget_limit
        (⟨⟨[⟨3⟩, compute_budget_id],
          [⟨1, [], [2, 208, 7, 0, 0]⟩]⟩⟩ : Transaction).message =
      some (u32_saturating_add 1000 1000) :=
  (c2_optimize_unsigned_amended ⟨⟨[⟨3⟩], []⟩⟩
    ⟨⟨[⟨3⟩, compute_budget_id], [⟨1, [], [2, 208, 7, 0, 0]⟩]⟩⟩
    [Except.ok (ProcessedTransaction.Executed
      ⟨1000, none, Except.ok ()⟩)] 1000 rfl).2.1

/-- C3 counterexample: at the simulated estimate u32::MAX the call
succeeds and the inserted limit is u32::MAX — `saturating_add` clamped it
— which differs from the claimed `e + 150`. -/
theorem c3_optimize_msg_cex :
    optimize_compute_units_msg ⟨[⟨4⟩], []⟩ (Except.ok (some 4294967295)) =
      Except.ok (4294967295, ⟨[⟨4⟩, compute_budget_id],
        [⟨1, [], [2, 255, 255, 255, 255]⟩]⟩) ∧
    head_budget_limit ⟨[⟨4⟩, compute_budget_id],
        [⟨1, [], [2, 255, 255, 255, 255]⟩]⟩ = some 4294967295 ∧
    (4294967295 : Nat) ≠ 4294967295 + 150 :=
  ⟨rfl, rfl, by decide⟩

/-- C3 (amended): when `optimize_compute_units_msg` returns `Ok(e)`,
instruction 0 of the message afterwards is a set-compute-unit-limit
instruction whose limit is e + 150 saturating at u32::MAX (exactly
e + 150 whenever that fits in u32), the budget-program address was
appended to the address list, and e equals the remote-simulation
estimate. -/
theorem c3_optimize_msg_amended (msg m : Message)
    (sim : Except String (Option Nat)) (e : Nat)
    (h : optimize_compute_units_msg msg sim = Except.ok (e, m)) :
    estimate_compute_units_msg sim = Except.ok e ∧ e < 4294967296 ∧
    head_budget_limit m = some (u32_saturating_add e 150) ∧
    (e + 150 < 4294967296 → head_budget_limit m = some (e + 150)) ∧
    m.account_keys = msg.account_keys ++ [compute_budget_id] ∧
    m.instructions.tail = msg.instructions := by
  obtain ⟨hest, hlt, hm⟩ := optimize_msg_ok_shape msg m sim e h
  subst hm
  have hhead := head_budget_limit_of_shape msg.account_keys
    msg.instructions (u32_saturating_add e 150) (saturating_lt_u32 e 150)
  refine ⟨hest, hlt, hhead, ?_, rfl, rfl⟩
  intro hfits
  rw [hhead]
  congr 1
  unfold u32_saturating_add
  omega

/-- Witness for C3 (amended) at estimate 1000: the inserted limit is
1150. -/
theorem c3_optimize_msg_amended_witness :
    head_budget_limit ⟨[⟨6⟩, compute_budget_id],
        [⟨1, [], [2, 126, 4, 0, 0]⟩]⟩ =
      some (u32_saturating_add 1000 150) :=
  (c3_optimize_msg_amended ⟨[⟨6⟩], []⟩
    ⟨[⟨6⟩, compute_budget_id], [⟨1, [], [2, 126, 4, 0, 0]⟩]⟩
    (Except.ok (some 1000)) 1000 rfl).2.2.1

/-- C6 counterexample: an estimate of 2^32 + 7 exceeds u32::MAX, yet
`optimize_compute_units_unsigned_tx` does not fail with a range error: it
silently truncates (`as u32`) to 7 and succeeds. -/
theorem c6_range_error_cex :
    estimate_compute_units_unsigned_tx ⟨⟨[⟨5⟩], []⟩⟩
        [Except.ok (ProcessedTransaction.Executed
          ⟨4294967303, none, Except.ok ()⟩)] =
      Except.ok [4294967303] ∧
    optimize_compute_units_unsigned_tx ⟨⟨[⟨5⟩], []⟩⟩
        [Except.ok (ProcessedTransaction.Executed
          ⟨4294967303, none, Except.ok ()⟩)] =
      some (Except.ok (7, ⟨⟨[⟨5⟩, compute_budget_id],
        [⟨1, [], [2, 14, 0, 0, 0]⟩]⟩⟩)) ∧
    (4294967295 : Nat) < 4294967303 :=
  ⟨rfl, rfl, by decide⟩

/-- C6 (amended): for an estimate exceeding u32::MAX,
`optimize_compute_units_msg` fails with the range error (via
`u32::try_from`), while `optimize_compute_units_unsigned_tx` does not
fail: it truncates the estimate to u32 (`as u32`) and succeeds. -/
theorem c6_range_error_amended (msg : Message)
    (sim : Except String (Option Nat)) (e : Nat) (tx : Transaction)
    (prs : List EngineResult) (cu0 : Nat) (rest : List Nat)
    (h1 : estimate_compute_units_msg sim = Except.ok e)
    (h2 : 4294967296 ≤ e)
    (h3 : estimate_compute_units_unsigned_tx tx prs = Except.ok (cu0 :: rest)) :
    optimize_compute_units_msg msg sim =
      Except.error "out of range integral type conversion attempted" ∧
    ∃ t, optimize_compute_units_unsigned_tx tx prs =
      some (Except.ok (cu0 % 4294967296, t)) := by
  constructor
  · simp [optimize_compute_units_msg, h1, u32_try_from,
      show ¬e < 4294967296 by omega]
  · refine ⟨?_, ?_⟩
    · exact ⟨⟨tx.message.account_keys ++ [compute_budget_id],
        (Message.compile_instruction
          ⟨tx.message.account_keys ++ [compute_budget_id],
            tx.message.instructions⟩
          (set_compute_unit_limit
            (u32_saturating_add (cu0 % 4294967296) (cu0 % 4294967296)))) ::
          tx.message.instructions⟩⟩
    · simp [optimize_compute_units_unsigned_tx, h3, List.head?]

/-- Witness for C6 (amended): the message path rejects the concrete
estimate 2^32. -/
theorem c6_range_error_amended_witness :
    optimize_compute_units_msg ⟨[⟨8⟩], []⟩ (Except.ok (some 4294967296)) =
      Except.error "out of range integral type conversion attempted" :=
  (c6_range_error_amended ⟨[⟨8⟩], []⟩ (Except.ok (some 4294967296))
    4294967296 ⟨⟨[⟨8⟩], []⟩⟩
    [Except.ok (ProcessedTransaction.Executed
      ⟨4294967297, none, Except.ok ()⟩)]
    4294967297 [] rfl (by decide) rfl).1

/-- C8 counterexample: running `optimize_compute_units_msg` twice on the
same message leaves two budget instructions in it — the at-most-one
invariant is not preserved across repeated optimize calls. -/
theorem c8_single_budget_cex :
    optimize_compute_units_msg ⟨[⟨9⟩], []⟩ (Except.ok (some 500)) =
      Except.ok (500, ⟨[⟨9⟩, compute_budget_id],
        [⟨1, [], [2, 138, 2, 0, 0]⟩]⟩) ∧
    optimize_compute_units_msg
        ⟨[⟨9⟩, compute_budget_id], [⟨1, [], [2, 138, 2, 0, 0]⟩]⟩
        (Except.ok (some 500)) =
      Except.ok (500, ⟨[⟨9⟩, compute_budget_id, compute_budget_id],
        [⟨1, [], [2, 138, 2, 0, 0]⟩, ⟨1, [], [2, 138, 2, 0, 0]⟩]⟩) ∧
    ¬ budget_ix_count ⟨[⟨9⟩, compute_budget_id, compute_budget_id],
        [⟨1, [], [2, 138, 2, 0, 0]⟩, ⟨1, [], [2, 138, 2, 0, 0]⟩]⟩ ≤ 1 :=
  ⟨rfl, rfl, by decide⟩

/-- C8 (amended): a single optimize call (either operation) on a
transaction or message that holds no budget instruction and whose
instruction indices are in range inserts exactly one budget instruction,
at the front; the invariant holds after one call from a budget-free state
but is not preserved by repeated calls (each call adds another). -/
theorem c8_single_budget_amended (msg m : Message)
    (sim : Except String (Option Nat)) (e : Nat) (tx t : Transaction)
    (prs : List EngineResult) (e2 : Nat)
    (h : optimize_compute_units_msg msg sim = Except.ok (e, m))
    (hfree : budget_ix_count msg = 0)
    (hidx : ∀ cix ∈ msg.instructions,
      cix.program_id_index < msg.account_keys.length)
    (h2 : optimize_compute_units_unsigned_tx tx prs = some (Except.ok (e2, t)))
    (hfree2 : budget_ix_count tx.message = 0)
    (hidx2 : ∀ cix ∈ tx.message.instructions,
      cix.program_id_index < tx.message.account_keys.length) :
    budget_ix_count m = 1 ∧
    (∃ cix, m.instructions = cix :: msg.instructions ∧
      is_budget_ix m cix = true) ∧
    budget_ix_count t.message = 1 ∧
    (∃ cix, t.message.instructions = cix :: tx.message.instructions ∧
      is_budget_ix t.message cix = true) := by
  obtain ⟨hest, hlt, hm⟩ := optimize_msg_ok_shape msg m sim e h
  obtain ⟨cu0, rest, hest2, he2, ht⟩ := optimize_unsigned_ok_shape tx t prs e2 h2
  subst hm
  subst ht
  refine ⟨?_, ⟨_, rfl, ?_⟩, ?_, ⟨_, rfl, ?_⟩⟩
  · exact budget_ix_count_cons_append msg.account_keys msg.instructions _
      hfree hidx
  · exact compiled_budget_is_budget msg.account_keys msg.instructions _ _
  · exact budget_ix_count_cons_append tx.message.account_keys
      tx.message.instructions _ hfree2 hidx2
  · exact compiled_budget_is_budget tx.message.account_keys
      tx.message.instructions _ _

/-- Witness for C8 (amended) on budget-free one-key inputs. -/
theorem c8_single_budget_amended_witness :
    budget_ix_count ⟨[⟨10⟩, compute_budget_id],
        [⟨1, [], [2, 194, 1, 0, 0]⟩]⟩ = 1 ∧
    budget_ix_count (⟨⟨[⟨11⟩, compute_budget_id],
        [⟨1, [], [2, 144, 1, 0, 0]⟩]⟩⟩ : Transaction).message = 1 :=
  ⟨(c8_single_budget_amended ⟨[⟨10⟩], []⟩
      ⟨[⟨10⟩, compute_budget_id], [⟨1, [], [2, 194, 1, 0, 0]⟩]⟩
      (Except.ok (some 300)) 300
      ⟨⟨[⟨11⟩], []⟩⟩ ⟨⟨[⟨11⟩, compute_budget_id],
        [⟨1, [], [2, 144, 1, 0, 0]⟩]⟩⟩
      [Except.ok (ProcessedTransaction.Executed
        ⟨200, none, Except.ok ()⟩)] 200
      rfl rfl (by simp) rfl rfl (by simp)).1,
    (c8_single_budget_amended ⟨[⟨10⟩], []⟩
      ⟨[⟨10⟩, compute_budget_id], [⟨1, [], [2, 194, 1, 0, 0]⟩]⟩
      (Except.ok (some 300)) 300
      ⟨⟨[⟨11⟩], []⟩⟩ ⟨⟨[⟨11⟩, compute_budget_id],
        [⟨1, [], [2, 144, 1, 0, 0]⟩]⟩⟩
      [Except.ok (ProcessedTransaction.Executed
        ⟨200, none, Except.ok ()⟩)] 200
      rfl rfl (by simp) rfl rfl (by simp)).2.2.1⟩

end RollupSpec
